import Mathlib

/-!
# Alchemium — formal model of the query/transaction core

A shallow embedding of the Alchemium data-access layer (Python/SQLAlchemy):
the Unit-of-Work transaction boundary (`src/uow/session.py`), the error
taxonomy (`src/exceptions/*`), and the repository mixins
(`src/mixins/{create,read,update}.py`, `src/queries/workers.py`,
`src/utils/validators.py`).

Python strings are modelled as Lean `String`; keyword-argument dictionaries
as association lists `List (String × String)`; a raised exception as an
error value returned through `Except`/`Option`.  Session methods are
modelled by an abstract behaviour record (each call either succeeds or
raises), and each operation additionally returns the ordered trace of
session methods it invoked, so that "commit was never called" or "close is
called exactly once" are statements about that trace.
-/

set_option autoImplicit false

namespace Alchemium

/-! ## String helpers: Python `needle in hay` and `str.lower()` -/

/-- `chListPrefix needle hay`: `needle` is a prefix of `hay` (character lists). -/
def chListPrefix : List Char → List Char → Bool
  | [], _ => true
  | _ :: _, [] => false
  | a :: as, b :: bs => a == b && chListPrefix as bs

/-- `chListContains needle hay`: `needle` occurs contiguously inside `hay`. -/
def chListContains (needle : List Char) : List Char → Bool
  | [] => chListPrefix needle []
  | c :: t => chListPrefix needle (c :: t) || chListContains needle t

/-- Model of Python's `needle in hay` substring test. -/
def strContains (hay needle : String) : Bool :=
  chListContains needle.data hay.data

/-- Model of Python's `str.lower()` (per-character lowering). -/
def pyLower (s : String) : String :=
  String.mk (s.data.map Char.toLower)

/-! ## The error taxonomy as a value type

One constructor per taxonomy class that the operations under scrutiny
actually raise, carrying exactly the keyword arguments the source passes at
each raise site (an argument the source does not pass renders as the empty
string — see the template model below, `pyFormat`). -/

inductive RepoErr where
  | uniqueViolation (original : String)
  | foreignKeyViolation (original : String)
  | transactionError (original : String)
  | dataValidationError (details original : String)
  | unknownTransactionError (details original : String)
  | repositoryUsageError (details : String)
  | relationNotFoundError (model rel : String)
  | fieldNotFoundError (model field : String)
  | orderByFieldError (model field : String)
  | paginationParameterError (model field details : String)
  | queryExecutionError (model details original : String)
  deriving DecidableEq, Repr

/-- Is this error a `FieldNotFoundError`? -/
def RepoErr.isFieldNotFound : RepoErr → Bool
  | .fieldNotFoundError _ _ => true
  | _ => false

/-- Is this error a `RepositoryUsageError`? -/
def RepoErr.isUsageError : RepoErr → Bool
  | .repositoryUsageError _ => true
  | _ => false

/-- Did the computation raise a `FieldNotFoundError`? -/
def exceptIsFieldNotFound {α : Type} : Except RepoErr α → Bool
  | .error e => e.isFieldNotFound
  | .ok _ => false

/-! ## Unit of Work (`src/uow/session.py`)

Session-level behaviour is abstract: each of `commit`, `rollback`, `close`
either succeeds or raises.  `session.commit` can raise an exception that
`UnitOfWork.commit` classifies; the classifying data is:
  * `integrityError origStr excStr` — SQLAlchemy `IntegrityError`, where
    `origStr` models `str(exc.orig)` and `excStr` models `str(exc)`;
  * `dataError excStr` — SQLAlchemy `DataError`;
  * `sqlalchemyError excStr` — any other `SQLAlchemyError`;
  * `otherError excStr` — any other Python exception. -/

inductive CommitExc where
  | integrityError (origStr excStr : String)
  | dataError (excStr : String)
  | sqlalchemyError (excStr : String)
  | otherError (excStr : String)
  deriving DecidableEq, Repr

/-- Abstract behaviour of one `AsyncSession` for the Unit-of-Work model:
the outcome of each session method when invoked (`none` = succeeds). -/
structure SessB where
  commitExc : Option CommitExc
  rollbackExc : Option String
  closeExc : Option String

/-- Session methods whose invocations the Unit-of-Work trace records. -/
inductive SessOp where
  | commit
  | rollback
  | close
  deriving DecidableEq, Repr

/-- An exception propagating out of the Unit of Work: a raw Python
exception (message only) or a taxonomy error. -/
inductive UowExc where
  | py (msg : String)
  | repo (e : RepoErr)
  deriving DecidableEq, Repr

/-- The classification performed by the `except` clauses of
`UnitOfWork.commit` (src/uow/session.py lines 73-89): `IntegrityError`
is matched on the lowered `str(exc.orig)` — substring `"unique"` first,
then `"foreign key"`, else a generic `TransactionError`; `DataError`
becomes `DataValidationError`; other `SQLAlchemyError`s become
`TransactionError`; anything else becomes `UnknownTransactionError`
with empty `details`.  Every branch carries `original = str(exc)`. -/
def classifyCommitExc : CommitExc → RepoErr
  | .integrityError origStr excStr =>
    let msg := pyLower origStr
    if strContains msg "unique" then .uniqueViolation excStr
    else if strContains msg "foreign key" then .foreignKeyViolation excStr
    else .transactionError excStr
  | .dataError excStr => .dataValidationError "" excStr
  | .sqlalchemyError excStr => .transactionError excStr
  | .otherError excStr => .unknownTransactionError "" excStr

/-- `UnitOfWork.commit`: invoke `session.commit`; on failure invoke
`session.rollback` and raise the classified taxonomy error — unless the
rollback itself raises, in which case the rollback's exception propagates
(Python: an exception raised inside an `except` handler replaces the one
being handled).  Returns the invocation trace and the propagating
exception, if any. -/
def uowCommit (b : SessB) : List SessOp × Option UowExc :=
  match b.commitExc with
  | none => ([SessOp.commit], none)
  | some ce =>
    match b.rollbackExc with
    | some m => ([SessOp.commit, SessOp.rollback], some (.py m))
    | none => ([SessOp.commit, SessOp.rollback], some (.repo (classifyCommitExc ce)))

/-- `UnitOfWork.__aexit__`: in the `try` part, roll back when an exception
escaped the scope body (`bodyExc`), else run `UnitOfWork.commit`; in the
`finally` part, always invoke `session.close`.  A `close` exception
replaces whatever the `try` part produced (Python `finally` semantics). -/
def uowAexit (b : SessB) (bodyExc : Option String) : List SessOp × Option UowExc :=
  let tryPart : List SessOp × Option UowExc :=
    match bodyExc with
    | some _ =>
      match b.rollbackExc with
      | some m => ([SessOp.rollback], some (.py m))
      | none => ([SessOp.rollback], none)
    | none => uowCommit b
  let trace := tryPart.1 ++ [SessOp.close]
  match b.closeExc with
  | some m => (trace, some (.py m))
  | none => (trace, tryPart.2)

/-! ## Read path (`src/mixins/read.py`, `src/queries/workers.py`)

The schema descriptor of one model: its name, the field names that resolve
to columns, and the relation names that resolve to joinable attributes. -/

structure SchemaModel where
  name : String
  fields : List String
  relations : List String

/-- The progressively-augmented, still-unexecuted statement: `select(model)`
plus the join instructions and equality predicates attached so far. -/
structure Stmt where
  model : String
  joins : List String := []
  filters : List (String × String) := []
  order : Option String := none
  skip : Option Int := none
  limit : Option Int := none
  deriving DecidableEq, Repr

/-- Modelled from the spec: `QueryBuilder.apply_joins`
(`src/src/query/builder.py` is imported by `read.py` but absent from the
sources).  Spec §4.3: "for each relation name in order, resolve via
Reflector; on success, attach an eager-load instruction; on failure, raise
`RelationNotFoundError{model, rel}` immediately".  A `none` join list (the
Python default) leaves the statement unchanged. -/
def applyJoinsList (M : SchemaModel) : Stmt → List String → Except RepoErr Stmt
  | stmt, [] => .ok stmt
  | stmt, r :: rest =>
    if M.relations.contains r then
      applyJoinsList M { stmt with joins := stmt.joins ++ [r] } rest
    else
      .error (.relationNotFoundError M.name r)

/-- `apply_joins` on the Python signature: a `none` join list (the default)
leaves the statement unchanged. -/
def apply_joins (stmt : Stmt) (M : SchemaModel) : Option (List String) → Except RepoErr Stmt
  | none => .ok stmt
  | some js => applyJoinsList M stmt js

/-- Modelled from the spec: `QueryBuilder.apply_filters`
(`src/src/query/builder.py` absent from the sources).  Spec §4.3: "for each
(field, value) pair, resolve field via Reflector; on success attach an
equality predicate; on resolution failure raise
`FieldNotFoundError{model, field}`". -/
def applyFiltersList (M : SchemaModel) : Stmt → List (String × String) → Except RepoErr Stmt
  | stmt, [] => .ok stmt
  | stmt, (k, v) :: rest =>
    if M.fields.contains k then
      applyFiltersList M { stmt with filters := stmt.filters ++ [(k, v)] } rest
    else
      .error (.fieldNotFoundError M.name k)

/-- `apply_filters` on the Python signature: a `none` filter mapping (the
default) leaves the statement unchanged. -/
def apply_filters (stmt : Stmt) (M : SchemaModel) : Option (List (String × String)) → Except RepoErr Stmt
  | none => .ok stmt
  | some fs => applyFiltersList M stmt fs

/-- Modelled from the spec: `QueryBuilder.apply_order_by`
(`src/src/query/builder.py` absent from the sources).  Spec §4.3: "if
present, resolve field; on failure raise `OrderByFieldError{model, field}`". -/
def apply_order_by (stmt : Stmt) (M : SchemaModel) : Option String → Except RepoErr Stmt
  | none => .ok stmt
  | some f =>
    if M.fields.contains f then .ok { stmt with order := some f }
    else .error (.orderByFieldError M.name f)

/-- Modelled from the spec: `QueryBuilder.apply_pagination`
(`src/src/query/builder.py` absent from the sources).  Spec §4.3: "validate
skip/limit are non-negative integers (or absent); on failure raise
`PaginationParameterError{model, field, details}`; attach offset/limit". -/
def apply_pagination (stmt : Stmt) (M : SchemaModel) (skip limit : Option Int) : Except RepoErr Stmt :=
  match skip with
  | some s =>
    if s < 0 then .error (.paginationParameterError M.name "skip" "must be a non-negative integer")
    else
      match limit with
      | some l =>
        if l < 0 then .error (.paginationParameterError M.name "limit" "must be a non-negative integer")
        else .ok { stmt with skip := some s, limit := some l }
      | none => .ok { stmt with skip := some s }
  | none =>
    match limit with
    | some l =>
      if l < 0 then .error (.paginationParameterError M.name "limit" "must be a non-negative integer")
      else .ok { stmt with limit := some l }
    | none => .ok stmt

/-- A driver exception raised by `asession.execute`: SQLAlchemy
`StatementError`, `DataError`, or any other Python exception (message
text only). -/
inductive ReadExc where
  | statementError (msg : String)
  | dataError (msg : String)
  | otherExc (msg : String)
  deriving DecidableEq, Repr

/-- Abstract behaviour of `asession.execute` for the read path: rows
(modelled as opaque strings) or a raised driver exception. -/
structure ReadSession where
  execResult : Except ReadExc (List String)

/-- Session events recorded on the read path: each invocation of
`asession.execute`. -/
inductive RdEvt where
  | execute
  deriving DecidableEq, Repr

/-- The `except (StatementError, DataError) / except Exception` translation
that appears verbatim around every read-path `asession.execute` call
(`src/queries/workers.py` lines 35-46, `src/mixins/read.py` lines 43-54
and 94-105): statement/data faults become
`QueryExecutionError{details:"(data/type issue)"}`, everything else
`QueryExecutionError{details:"(unknown error)"}`, with `original = str(exc)`. -/
def classifyReadExc (modelName : String) : ReadExc → RepoErr
  | .statementError m => .queryExecutionError modelName "(data/type issue)" m
  | .dataError m => .queryExecutionError modelName "(data/type issue)" m
  | .otherExc m => .queryExecutionError modelName "(unknown error)" m

/-- `QueryExecutor.execute` (`src/queries/workers.py`): run the statement,
translating any driver exception via the shared classification. -/
def queryExecutorExecute (sess : ReadSession) (modelName : String) :
    List RdEvt × Except RepoErr (List String) :=
  match sess.execResult with
  | .ok rows => ([RdEvt.execute], .ok rows)
  | .error e => ([RdEvt.execute], .error (classifyReadExc modelName e))

/-- `ReadMixin.get_one` (`src/mixins/read.py` lines 18-54): require a
configured model, build `select(model)` through `apply_joins` then
`apply_filters`, then execute and take the first row; driver exceptions are
translated via the shared classification.  Returns the trace of
`asession.execute` invocations alongside the outcome. -/
def get_one (clsName : String) (model : Option SchemaModel) (sess : ReadSession)
    (filters : Option (List (String × String))) (joins : Option (List String)) :
    List RdEvt × Except RepoErr (Option String) :=
  match model with
  | none =>
    ([], .error (.repositoryUsageError (clsName ++ " repository must define model attribute")))
  | some M =>
    match apply_joins { model := M.name } M joins with
    | .error e => ([], .error e)
    | .ok s1 =>
      match apply_filters s1 M filters with
      | .error e => ([], .error e)
      | .ok _s2 =>
        match sess.execResult with
        | .ok rows => ([RdEvt.execute], .ok rows.head?)
        | .error e => ([RdEvt.execute], .error (classifyReadExc M.name e))

/-- `ReadMixin.list` (`src/mixins/read.py` lines 56-105): require a
configured model, build the full plan (`apply_joins` → `apply_filters` →
`apply_order_by` → `apply_pagination`), execute, and return all rows;
driver exceptions are translated via the shared classification. -/
def listOp (clsName : String) (model : Option SchemaModel) (sess : ReadSession)
    (filters : Option (List (String × String))) (order_by : Option String)
    (skip limit : Option Int) (joins : Option (List String)) :
    List RdEvt × Except RepoErr (List String) :=
  match model with
  | none =>
    ([], .error (.repositoryUsageError (clsName ++ " repository must define model attribute")))
  | some M =>
    match apply_joins { model := M.name } M joins with
    | .error e => ([], .error e)
    | .ok s1 =>
      match apply_filters s1 M filters with
      | .error e => ([], .error e)
      | .ok s2 =>
        match apply_order_by s2 M order_by with
        | .error e => ([], .error e)
        | .ok s3 =>
          match apply_pagination s3 M skip limit with
          | .error e => ([], .error e)
          | .ok _s4 =>
            match sess.execResult with
            | .ok rows => ([RdEvt.execute], .ok rows)
            | .error e => ([RdEvt.execute], .error (classifyReadExc M.name e))

/-! ## Objects, `CreateMixin.create`, `UpdateMixin.update`

A Python object is modelled by its runtime class name plus its attribute
dictionary; `hasattr`/`setattr` operate on that dictionary.  Attribute
values are modelled as strings. -/

structure PyObj where
  cls : String
  attrs : List (String × String)
  deriving DecidableEq, Repr

/-- Python `hasattr(obj, k)`. -/
def hasattrB (obj : PyObj) (k : String) : Bool :=
  obj.attrs.any (fun p => p.1 == k)

/-- Python `setattr(obj, k, v)`: overwrite the binding when the attribute
exists, otherwise add it. -/
def setattrF (obj : PyObj) (k v : String) : PyObj :=
  if obj.attrs.any (fun p => p.1 == k) then
    { obj with attrs := obj.attrs.map (fun p => if p.1 == k then (k, v) else p) }
  else
    { obj with attrs := obj.attrs ++ [(k, v)] }

/-- Outcome of evaluating `cls.model(**data)` — the model constructor is an
external collaborator (SQLAlchemy declarative model), so `create` is
parametrised by its outcome on the given `data`: a fresh instance, or a
raised `TypeError` / `ValueError` / other exception. -/
inductive CtorResult where
  | ok (obj : PyObj)
  | typeError (msg : String)
  | valueError (msg : String)
  | otherError (msg : String)
  deriving DecidableEq, Repr

/-- Session events recorded on the create path. -/
inductive CrEvt where
  | add (obj : PyObj)
  | commit
  deriving DecidableEq, Repr

/-- `CreateMixin.create` (`src/mixins/create.py`): require a configured
model; construct the instance and register it with `asession.add`;
translate `TypeError`/`ValueError` to `DataValidationError` and any other
construction failure to `UnknownTransactionError`, with the messages the
source builds.  Returns the trace of session events alongside the outcome. -/
def create (clsName : String) (model : Option String) (ctor : CtorResult) :
    List CrEvt × Except RepoErr PyObj :=
  match model with
  | none =>
    ([], .error (.repositoryUsageError (clsName ++ " repository must define model attribute")))
  | some mname =>
    match ctor with
    | .ok obj => ([CrEvt.add obj], .ok obj)
    | .typeError msg =>
      ([], .error (.dataValidationError ("Invalid argument(s) for model '" ++ mname ++ "'") msg))
    | .valueError msg =>
      ([], .error (.dataValidationError ("Invalid value(s) for model '" ++ mname ++ "'") msg))
    | .otherError msg =>
      ([], .error (.unknownTransactionError ("Unexpected error while creating '" ++ mname ++ "'") msg))

/-- `validate_model_defined` (`src/utils/validators.py` lines 6-16):
raise `RepositoryUsageError` when the repository class has no model. -/
def validate_model_defined (clsName : String) (model : Option String) : Option RepoErr :=
  match model with
  | none => some (.repositoryUsageError (clsName ++ " repository must define model attribute"))
  | some _ => none

/-- `validate_object_to_update_defined` (`src/utils/validators.py` lines
19-30): raise `RepositoryUsageError` when the object to update is `None`.
(Note: the source performs no `isinstance` check against the configured
model.) -/
def validate_object_to_update_defined (clsName : String) (obj : Option PyObj) : Option RepoErr :=
  match obj with
  | none => some (.repositoryUsageError (clsName ++ " Object to update must be provided"))
  | some _ => none

/-- The `for key, value in data.items()` loop of `UpdateMixin.update`
(`src/mixins/update.py` lines 40-46): set each attribute that exists; at
the first key the object lacks, raise `DataValidationError` with details
`'{key}' for model '{type(obj).__name__}'`.  Returns the object's state at
loop exit together with the raised error, if any. -/
def updateLoop (obj : PyObj) : List (String × String) → PyObj × Option RepoErr
  | [] => (obj, none)
  | (k, v) :: rest =>
    if hasattrB obj k then
      updateLoop (setattrF obj k v) rest
    else
      (obj, some (.dataValidationError ("'" ++ k ++ "' for model '" ++ obj.cls ++ "'") ""))

/-- `UpdateMixin.update` (`src/mixins/update.py` lines 22-48): validate the
model is configured and the object is provided, then run the assignment
loop over `data` in iteration order.  Returns the object's state after the
call (mutation is in place in the source) and the raised error, if any. -/
def update (clsName : String) (model : Option String) (obj : Option PyObj)
    (data : List (String × String)) : Option PyObj × Option RepoErr :=
  match validate_model_defined clsName model with
  | some e => (obj, some e)
  | none =>
    match validate_object_to_update_defined clsName obj with
    | some e => (obj, some e)
    | none =>
      match obj with
      | none => (none, none)  -- unreachable: the object validator raised on `none`
      | some o =>
        let r := updateLoop o data
        (some r.1, r.2)

/-! ## The exception class hierarchy exposed by `src.exceptions`

`src/exceptions/__init__.py` re-exports: `TransactionError` and
`UnknownTransactionError` from `base.py`; `UniqueViolation` and
`ForeignKeyViolation` from `session.py`; `RepositoryUsageError`,
`DataValidationError` and `QueryExecutionError` from `mixins.py`;
`RelationNotFoundError`, `FieldNotFoundError`, `QueryError`,
`OrderByFieldError` and `PaginationParameterError` from `builder.py`.
`pyBase` records each exported class's direct base class as written in the
exporting module. -/

inductive ExcClass where
  | pyException
  | repositoryError
  | transactionError
  | uniqueViolation
  | foreignKeyViolation
  | dataValidationError
  | unknownTransactionError
  | queryError
  | relationNotFoundError
  | fieldNotFoundError
  | queryExecutionError
  | orderByFieldError
  | paginationParameterError
  | repositoryUsageError
  deriving DecidableEq, Repr

/-- The direct base class of each class exported by `src.exceptions`:
`RepositoryError(Exception)` and `TransactionError(RepositoryError)`,
`UnknownTransactionError(TransactionError)` from `base.py`;
`UniqueViolation(TransactionError)`, `ForeignKeyViolation(TransactionError)`
from `session.py`; `RepositoryUsageError(RepositoryError)`,
`DataValidationError(TransactionError)`,
`QueryExecutionError(RepositoryError)` from `mixins.py`;
`RelationNotFoundError(RepositoryError)`,
`FieldNotFoundError(RepositoryError)`, `QueryError(RepositoryError)`,
`OrderByFieldError(QueryError)`, `PaginationParameterError(QueryError)`
from `builder.py`. -/
def pyBase : ExcClass → Option ExcClass
  | .pyException => none
  | .repositoryError => some .pyException
  | .transactionError => some .repositoryError
  | .uniqueViolation => some .transactionError
  | .foreignKeyViolation => some .transactionError
  | .dataValidationError => some .transactionError
  | .unknownTransactionError => some .transactionError
  | .queryError => some .repositoryError
  | .relationNotFoundError => some .repositoryError
  | .fieldNotFoundError => some .repositoryError
  | .queryExecutionError => some .repositoryError
  | .orderByFieldError => some .queryError
  | .paginationParameterError => some .queryError
  | .repositoryUsageError => some .repositoryError

/-- The (strict) ancestors of a class: its base, the base's base, … .
The hierarchy is at most four levels deep, so fuel 8 suffices. -/
def ancestorsAux : Nat → ExcClass → List ExcClass
  | 0, _ => []
  | fuel + 1, c =>
    match pyBase c with
    | none => []
    | some b => b :: ancestorsAux fuel b

def ancestors (c : ExcClass) : List ExcClass :=
  ancestorsAux 8 c

/-- Python `issubclass c d` over the exported hierarchy (reflexive, then
follows base-class links). -/
def subclassOf (c d : ExcClass) : Bool :=
  c == d || (ancestors c).contains d

/-! ## Message templates and rendering (`RepositoryError.__init__`)

`src/exceptions/base.py` lines 10-25: the constructor parses the class's
`template` for named placeholders (`_get_template_fields`, via
`string.Formatter().parse`, keeping non-empty names), builds a dictionary
mapping each parsed name to `kwargs.get(name, "")`, and calls
`template.format(**dict)`.  `pyFormatGo` models `str.format` faithfully as
a fallible scan: a replacement field whose name the dictionary lacks is a
`KeyError`, i.e. `none`. -/

/-- One pass over the template characters.  The accumulator is `none` in
literal mode and `some f` while scanning a replacement-field name `f`
(our templates contain no escaped braces and no format specs). -/
def pyFormatGo (m : String → Option String) (acc : Option (List Char)) :
    List Char → Option (List Char)
  | [] =>
    match acc with
    | none => some []
    | some _ => none
  | c :: cs =>
    match acc with
    | none =>
      if c = '{' then pyFormatGo m (some []) cs
      else (pyFormatGo m none cs).map (fun r => c :: r)
    | some f =>
      if c = '}' then
        match m (String.mk f) with
        | none => none
        | some v => (pyFormatGo m none cs).map (fun r => v.data ++ r)
      else pyFormatGo m (some (f ++ [c])) cs

/-- Model of Python's `template.format(**mapping)`: `none` models a raised
`KeyError` (or an unterminated replacement field). -/
def pyFormat (t : String) (m : String → Option String) : Option String :=
  (pyFormatGo m none t.data).map String.mk

/-- The field names `_get_template_fields` extracts from a template
(non-empty replacement-field names, in order). -/
def templateFieldsGo (acc : Option (List Char)) : List Char → List String
  | [] => []
  | c :: cs =>
    match acc with
    | none =>
      if c = '{' then templateFieldsGo (some []) cs
      else templateFieldsGo none cs
    | some f =>
      if c = '}' then
        if f.isEmpty then templateFieldsGo none cs
        else String.mk f :: templateFieldsGo none cs
      else templateFieldsGo (some (f ++ [c])) cs

def templateFields (t : String) : List String :=
  templateFieldsGo none t.data

/-- Python `kwargs.get(k, "")` over a keyword-argument list. -/
def kwGet (kwargs : List (String × String)) (k : String) : String :=
  match kwargs.find? (fun p => p.1 == k) with
  | some p => p.2
  | none => ""

/-- The `template` attribute of each class exported by `src.exceptions`,
as found by `getattr(self, "template", self.default_template)`: classes
without a `template` of their own in the exporting module
(`RepositoryError`, `TransactionError`, `UnknownTransactionError` in
`base.py`) fall back to `default_template`. -/
def excTemplate : ExcClass → String
  | .pyException => "Repository error occurred."
  | .repositoryError => "Repository error occurred."
  | .transactionError => "Repository error occurred."
  | .uniqueViolation => "Unique constraint violation. {original}"
  | .foreignKeyViolation => "Foreign key constraint violation. {original}"
  | .dataValidationError => "Invalid data: {details}. {original}"
  | .unknownTransactionError => "Repository error occurred."
  | .queryError => "Model '{model}': unknown filter error for field '{field}'. {original}"
  | .relationNotFoundError =>
    "Model '{model}': relation '{rel}' for join not found or invalid. {original}"
  | .fieldNotFoundError => "Model '{model}': filter field '{field}' not found. {original}"
  | .queryExecutionError => "Model '{model}': query execution error '{details}'. {original}"
  | .orderByFieldError =>
    "Model '{model}': specified order_by field '{field}' does not exist or is invalid. {original}"
  | .paginationParameterError =>
    "Model '{model}': invalid pagination parameter '{field}'. {details}. {original}"
  | .repositoryUsageError => "Repository usage error: {details}"

/-- `RepositoryError.__init__` (`src/exceptions/base.py` lines 10-16):
render `self.message` by formatting the class template over the dictionary
`{k: kwargs.get(k, "") for k in _get_template_fields(template)}`.
`none` models the constructor raising. -/
def mkMessage (c : ExcClass) (kwargs : List (String × String)) : Option String :=
  let t := excTemplate c
  let fields := templateFields t
  pyFormat t (fun k => if fields.contains k then some (kwGet kwargs k) else none)

/-! ## Helper lemmas -/

theorem str_append_mk (a b : String) : a ++ b = String.mk (a.data ++ b.data) := rfl

theorem chListPrefix_append (n m : List Char) : chListPrefix n (n ++ m) = true := by
  induction n with
  | nil => rfl
  | cons a as ih => simp [chListPrefix, ih]

theorem chListContains_append (n x y : List Char) :
    chListContains n (x ++ (n ++ y)) = true := by
  induction x with
  | nil =>
    cases n with
    | nil => cases y <;> simp [chListContains, chListPrefix]
    | cons a as =>
      have := chListPrefix_append (a :: as) y
      simp only [List.nil_append]
      simp [chListContains]
      left
      simpa using this
  | cons c cs ih => simp [chListContains, ih]

theorem applyJoinsList_ok (M : SchemaModel) (js : List String) :
    ∀ stmt : Stmt, (∀ r ∈ js, r ∈ M.relations) →
      ∃ s, applyJoinsList M stmt js = .ok s := by
  induction js with
  | nil => exact fun stmt _ => ⟨stmt, rfl⟩
  | cons r rest ih =>
    intro stmt h
    have hr : r ∈ M.relations := h r (by simp)
    have := ih { stmt with joins := stmt.joins ++ [r] } (fun q hq => h q (by simp [hq]))
    simpa [applyJoinsList, hr] using this

theorem applyFiltersList_ok (M : SchemaModel) (fs : List (String × String)) :
    ∀ stmt : Stmt, (∀ p ∈ fs, p.1 ∈ M.fields) →
      ∃ s, applyFiltersList M stmt fs = .ok s := by
  induction fs with
  | nil => exact fun stmt _ => ⟨stmt, rfl⟩
  | cons p rest ih =>
    intro stmt h
    have hp : p.1 ∈ M.fields := h p (by simp)
    have := ih { stmt with filters := stmt.filters ++ [p] } (fun q hq => h q (by simp [hq]))
    obtain ⟨s, hs⟩ := this
    refine ⟨s, ?_⟩
    simpa [applyFiltersList, hp] using hs

theorem applyFiltersList_first_invalid (M : SchemaModel) (pre : List (String × String)) :
    ∀ (stmt : Stmt) (k v : String) (rest : List (String × String)),
      (∀ p ∈ pre, p.1 ∈ M.fields) → k ∉ M.fields →
      applyFiltersList M stmt (pre ++ (k, v) :: rest)
        = .error (.fieldNotFoundError M.name k) := by
  induction pre with
  | nil =>
    intro stmt k v rest _ hk
    simp [applyFiltersList, hk]
  | cons p ps ih =>
    intro stmt k v rest hpre hk
    have hp : p.1 ∈ M.fields := hpre p (by simp)
    have := ih { stmt with filters := stmt.filters ++ [p] } k v rest
      (fun q hq => hpre q (by simp [hq])) hk
    simpa [applyFiltersList, hp] using this

theorem setattrF_cls (o : PyObj) (k v : String) : (setattrF o k v).cls = o.cls := by
  unfold setattrF
  split <;> rfl

theorem any_map_setkey (k v j : String) (l : List (String × String)) :
    (l.map (fun p => if p.1 == k then (k, v) else p)).any (fun p => p.1 == j)
      = l.any (fun p => p.1 == j) := by
  induction l with
  | nil => rfl
  | cons p ps ih =>
    simp only [List.map_cons, List.any_cons]
    by_cases hpk : (p.1 == k) = true
    · have hkey : p.1 = k := eq_of_beq hpk
      rw [if_pos hpk, ih, hkey]
    · rw [if_neg hpk, ih]

theorem hasattrB_setattrF (o : PyObj) (k v : String) (h : hasattrB o k = true) (j : String) :
    hasattrB (setattrF o k v) j = hasattrB o j := by
  unfold hasattrB at h ⊢
  unfold setattrF
  rw [if_pos h]
  exact any_map_setkey k v j o.attrs

theorem updateLoop_partial (pre : List (String × String)) :
    ∀ (o : PyObj) (k v : String) (rest : List (String × String)),
      (∀ p ∈ pre, hasattrB o p.1 = true) → hasattrB o k = false →
      updateLoop o (pre ++ (k, v) :: rest)
        = (pre.foldl (fun acc p => setattrF acc p.1 p.2) o,
           some (.dataValidationError ("'" ++ k ++ "' for model '" ++ o.cls ++ "'") "")) := by
  induction pre with
  | nil =>
    intro o k v rest _ hk
    simp [updateLoop, hk]
  | cons p ps ih =>
    intro o k v rest hpre hk
    have hp : hasattrB o p.1 = true := hpre p (by simp)
    have hpre' : ∀ q ∈ ps, hasattrB (setattrF o p.1 p.2) q.1 = true := by
      intro q hq
      rw [hasattrB_setattrF o p.1 p.2 hp]
      exact hpre q (by simp [hq])
    have hk' : hasattrB (setattrF o p.1 p.2) k = false := by
      rw [hasattrB_setattrF o p.1 p.2 hp]
      exact hk
    have := ih (setattrF o p.1 p.2) k v rest hpre' hk'
    simpa [updateLoop, hp, setattrF_cls] using this

/-! ## Claim theorems -/

/-- C1: For every Unit of Work scope: if an exception propagates out of the
scope body, `session.rollback` is invoked and `session.commit` is not; if
the body exits normally, `session.commit` is invoked; and in every exit
path (normal exit, body exception, commit failure, or rollback/commit
itself raising) `session.close` is invoked exactly once. -/
theorem uow_scope_terminal_actions (b : SessB) (bodyExc : Option String) :
    (bodyExc.isSome = true →
      SessOp.rollback ∈ (uowAexit b bodyExc).1 ∧ SessOp.commit ∉ (uowAexit b bodyExc).1) ∧
    (bodyExc = none → SessOp.commit ∈ (uowAexit b bodyExc).1) ∧
    (uowAexit b bodyExc).1.count SessOp.close = 1 := by
  obtain ⟨ce, re, cl⟩ := b
  cases bodyExc <;> cases ce <;> cases re <;> cases cl <;>
    simp [uowAexit, uowCommit, List.count_cons]

/-- Witness for C1: a session whose commit fails while the body also
raised — rollback happens, commit is never invoked, close exactly once. -/
theorem uow_scope_terminal_actions_witness :
    SessOp.rollback ∈ (uowAexit ⟨some (.dataError "d"), none, none⟩ (some "boom")).1 ∧
    SessOp.commit ∉ (uowAexit ⟨some (.dataError "d"), none, none⟩ (some "boom")).1 ∧
    (uowAexit ⟨some (.dataError "d"), none, none⟩ (some "boom")).1.count SessOp.close = 1 := by
  have h := uow_scope_terminal_actions ⟨some (.dataError "d"), none, none⟩ (some "boom")
  exact ⟨(h.1 rfl).1, (h.1 rfl).2, h.2.2⟩

/-- C2: When `UnitOfWork.commit`'s underlying `session.commit` raises, the
failure is classified: an integrity fault whose lowered message contains
"unique" raises `UniqueViolation`; one containing "foreign key" raises
`ForeignKeyViolation`; any other integrity fault raises `TransactionError`;
a `DataError` raises `DataValidationError`; any other SQLAlchemy fault
raises `TransactionError`; any unrecognized fault raises
`UnknownTransactionError`; in every branch `session.rollback` is invoked
before the taxonomy error is raised (it precedes the raise in the trace),
and the original fault text is preserved in the raised error. -/
theorem uow_commit_failure_classification (b : SessB) (hrb : b.rollbackExc = none) :
    (∀ o s, b.commitExc = some (.integrityError o s) →
      uowCommit b = ([SessOp.commit, SessOp.rollback], some (.repo (
        if strContains (pyLower o) "unique" then .uniqueViolation s
        else if strContains (pyLower o) "foreign key" then .foreignKeyViolation s
        else .transactionError s)))) ∧
    (∀ s, b.commitExc = some (.dataError s) →
      uowCommit b = ([SessOp.commit, SessOp.rollback], some (.repo (.dataValidationError "" s)))) ∧
    (∀ s, b.commitExc = some (.sqlalchemyError s) →
      uowCommit b = ([SessOp.commit, SessOp.rollback], some (.repo (.transactionError s)))) ∧
    (∀ s, b.commitExc = some (.otherError s) →
      uowCommit b = ([SessOp.commit, SessOp.rollback], some (.repo (.unknownTransactionError "" s)))) := by
  refine ⟨?_, ?_, ?_, ?_⟩ <;> intro _ <;> intros <;>
    simp_all [uowCommit, classifyCommitExc]

/-- Witness for C2: a commit failing with an integrity fault whose message
contains "unique" yields `UniqueViolation` after a rollback. -/
theorem uow_commit_failure_classification_witness :
    uowCommit ⟨some (.integrityError "UNIQUE constraint failed: users.name" "exc text"), none, none⟩
      = ([SessOp.commit, SessOp.rollback], some (.repo (.uniqueViolation "exc text"))) := by
  have h := uow_commit_failure_classification
    ⟨some (.integrityError "UNIQUE constraint failed: users.name" "exc text"), none, none⟩ rfl
  have h2 := h.1 "UNIQUE constraint failed: users.name" "exc text" rfl
  rw [h2]
  have hc : strContains (pyLower "UNIQUE constraint failed: users.name") "unique" = true := by
    decide
  rw [hc]
  rfl

/-- C3 counterexample: with an unknown join relation *and* an unknown
filter key, `get_one` raises `RelationNotFoundError` (joins are applied
before filters), not `FieldNotFoundError` — so the claim as stated fails;
`execute` is still never called (empty trace). -/
theorem read_invalid_filter_counterexample :
    get_one "UserRepository" (some ⟨"User", ["id", "name"], ["profile"]⟩)
        ⟨.ok ["row"]⟩ (some [("bogus", "v")]) (some ["missing_rel"])
      = ([], .error (.relationNotFoundError "User" "missing_rel")) ∧
    exceptIsFieldNotFound
      (get_one "UserRepository" (some ⟨"User", ["id", "name"], ["profile"]⟩)
        ⟨.ok ["row"]⟩ (some [("bogus", "v")]) (some ["missing_rel"])).2 = false := by
  exact ⟨rfl, rfl⟩

/-- C3 (amended): for every `get_one`/`list` call whose join relations all
resolve and whose filters contain an invalid field key, the operation
raises `FieldNotFoundError` naming the first such key and the model, and
`session.execute` is never called (empty execute trace). -/
theorem read_invalid_filter_fails_before_execute
    (clsName : String) (M : SchemaModel) (sess : ReadSession)
    (joins : Option (List String)) (order_by : Option String) (skip limit : Option Int)
    (pre rest : List (String × String)) (k v : String)
    (hj : ∀ r ∈ joins.getD [], r ∈ M.relations)
    (hpre : ∀ p ∈ pre, p.1 ∈ M.fields)
    (hk : k ∉ M.fields) :
    get_one clsName (some M) sess (some (pre ++ (k, v) :: rest)) joins
      = ([], .error (.fieldNotFoundError M.name k)) ∧
    listOp clsName (some M) sess (some (pre ++ (k, v) :: rest)) order_by skip limit joins
      = ([], .error (.fieldNotFoundError M.name k)) := by
  have hfil : applyFiltersList M { model := M.name } (pre ++ (k, v) :: rest)
      = .error (.fieldNotFoundError M.name k) :=
    applyFiltersList_first_invalid M pre { model := M.name } k v rest hpre hk
  cases joins with
  | none =>
    constructor
    · simp only [get_one, apply_joins, apply_filters]
      rw [hfil]
    · simp only [listOp, apply_joins, apply_filters]
      rw [hfil]
  | some js =>
    obtain ⟨s, hs⟩ := applyJoinsList_ok M js { model := M.name } (by simpa using hj)
    have hfil' : applyFiltersList M s (pre ++ (k, v) :: rest)
        = .error (.fieldNotFoundError M.name k) :=
      applyFiltersList_first_invalid M pre s k v rest hpre hk
    constructor
    · simp only [get_one, apply_joins, apply_filters]
      rw [hs]
      simp [hfil']
    · simp only [listOp, apply_joins, apply_filters]
      rw [hs]
      simp [hfil']

/-- Witness for C3 (amended): a valid join plus an invalid filter key on a
concrete model — `FieldNotFoundError` naming "bogus" and "User", with no
execution. -/
theorem read_invalid_filter_fails_before_execute_witness :
    get_one "UserRepository" (some ⟨"User", ["id", "name"], ["profile"]⟩)
        ⟨.ok ["row"]⟩ (some [("id", "1"), ("bogus", "v")]) (some ["profile"])
      = ([], .error (.fieldNotFoundError "User" "bogus")) ∧
    listOp "UserRepository" (some ⟨"User", ["id", "name"], ["profile"]⟩)
        ⟨.ok ["row"]⟩ (some [("id", "1"), ("bogus", "v")]) none none none (some ["profile"])
      = ([], .error (.fieldNotFoundError "User" "bogus")) := by
  exact read_invalid_filter_fails_before_execute "UserRepository"
    ⟨"User", ["id", "name"], ["profile"]⟩ ⟨.ok ["row"]⟩ (some ["profile"]) none none none
    [("id", "1")] [] "bogus" "v" (by decide) (by decide) (by decide)

/-- C4: For every execution through `QueryExecutor.execute`, `get_one` or
`list` that reaches the single I/O call: a `StatementError` or `DataError`
from the driver raises `QueryExecutionError` with details
"(data/type issue)"; any other exception raises `QueryExecutionError` with
details "(unknown error)"; in both cases the original exception text is
preserved in the error, and no driver exception escapes untranslated. -/
theorem read_exec_error_translation
    (mn clsName : String) (M : SchemaModel) (sess : ReadSession)
    (filters : Option (List (String × String))) (joins : Option (List String))
    (order_by : Option String) (skip limit : Option Int) (m : String)
    (hj : ∀ r ∈ joins.getD [], r ∈ M.relations)
    (hf : ∀ p ∈ filters.getD [], p.1 ∈ M.fields)
    (ho : ∀ f ∈ order_by, f ∈ M.fields)
    (hs : ∀ s ∈ skip, 0 ≤ s) (hl : ∀ l ∈ limit, 0 ≤ l) :
    ((sess.execResult = .error (.statementError m) ∨ sess.execResult = .error (.dataError m)) →
      queryExecutorExecute sess mn
        = ([RdEvt.execute], .error (.queryExecutionError mn "(data/type issue)" m)) ∧
      get_one clsName (some M) sess filters joins
        = ([RdEvt.execute], .error (.queryExecutionError M.name "(data/type issue)" m)) ∧
      listOp clsName (some M) sess filters order_by skip limit joins
        = ([RdEvt.execute], .error (.queryExecutionError M.name "(data/type issue)" m))) ∧
    (sess.execResult = .error (.otherExc m) →
      queryExecutorExecute sess mn
        = ([RdEvt.execute], .error (.queryExecutionError mn "(unknown error)" m)) ∧
      get_one clsName (some M) sess filters joins
        = ([RdEvt.execute], .error (.queryExecutionError M.name "(unknown error)" m)) ∧
      listOp clsName (some M) sess filters order_by skip limit joins
        = ([RdEvt.execute], .error (.queryExecutionError M.name "(unknown error)" m))) := by
  have hjoins : ∃ s1, apply_joins { model := M.name } M joins = .ok s1 := by
    cases joins with
    | none => exact ⟨{ model := M.name }, rfl⟩
    | some js => exact applyJoinsList_ok M js { model := M.name } (by simpa using hj)
  obtain ⟨s1, hs1⟩ := hjoins
  have hfilters : ∃ s2, apply_filters s1 M filters = .ok s2 := by
    cases filters with
    | none => exact ⟨s1, rfl⟩
    | some fs => exact applyFiltersList_ok M fs s1 (by simpa using hf)
  obtain ⟨s2, hs2⟩ := hfilters
  have horder : ∃ s3, apply_order_by s2 M order_by = .ok s3 := by
    cases order_by with
    | none => exact ⟨s2, rfl⟩
    | some f =>
      have : f ∈ M.fields := ho f (by simp)
      exact ⟨{ s2 with order := some f }, by simp [apply_order_by, this]⟩
  obtain ⟨s3, hs3⟩ := horder
  have hpag : ∃ s4, apply_pagination s3 M skip limit = .ok s4 := by
    cases skip with
    | none =>
      cases limit with
      | none => exact ⟨s3, rfl⟩
      | some l =>
        have : ¬ l < 0 := by have := hl l (by simp); omega
        exact ⟨{ s3 with limit := some l }, by simp [apply_pagination, this]⟩
    | some s =>
      have hns : ¬ s < 0 := by have := hs s (by simp); omega
      cases limit with
      | none => exact ⟨{ s3 with skip := some s }, by simp [apply_pagination, hns]⟩
      | some l =>
        have hnl : ¬ l < 0 := by have := hl l (by simp); omega
        exact ⟨{ s3 with skip := some s, limit := some l }, by simp [apply_pagination, hns, hnl]⟩
  obtain ⟨s4, hs4⟩ := hpag
  constructor
  · rintro (he | he) <;>
      refine ⟨?_, ?_, ?_⟩ <;>
        simp only [queryExecutorExecute, get_one, listOp, he, hs1, hs2, hs3, hs4,
          classifyReadExc]
  · intro he
    refine ⟨?_, ?_, ?_⟩ <;>
      simp only [queryExecutorExecute, get_one, listOp, he, hs1, hs2, hs3, hs4,
        classifyReadExc]

/-- Witness for C4: a concrete `DataError` from the driver is translated
to `QueryExecutionError` with details "(data/type issue)" by the executor,
`get_one` and `list`. -/
theorem read_exec_error_translation_witness :
    queryExecutorExecute ⟨.error (.dataError "bad cast")⟩ "User"
      = ([RdEvt.execute], .error (.queryExecutionError "User" "(data/type issue)" "bad cast")) ∧
    get_one "UserRepository" (some ⟨"User", ["id", "name"], ["profile"]⟩)
        ⟨.error (.dataError "bad cast")⟩ (some [("id", "1")]) (some ["profile"])
      = ([RdEvt.execute], .error (.queryExecutionError "User" "(data/type issue)" "bad cast")) ∧
    listOp "UserRepository" (some ⟨"User", ["id", "name"], ["profile"]⟩)
        ⟨.error (.dataError "bad cast")⟩ (some [("id", "1")]) (some "name") (some 1) (some 2)
        (some ["profile"])
      = ([RdEvt.execute], .error (.queryExecutionError "User" "(data/type issue)" "bad cast")) := by
  exact (read_exec_error_translation "User" "UserRepository"
    ⟨"User", ["id", "name"], ["profile"]⟩ ⟨.error (.dataError "bad cast")⟩
    (some [("id", "1")]) (some ["profile"]) (some "name") (some 1) (some 2) "bad cast"
    (by decide) (by decide) (by decide) (by decide) (by decide)).1 (Or.inr rfl)

/-- C5 counterexample: in the hierarchy exposed by `src.exceptions`,
`RelationNotFoundError`, `FieldNotFoundError` and `QueryExecutionError`
are *not* subclasses of `QueryError` (the exporting modules derive them
directly from `RepositoryError`), so the claim as stated is false. -/
theorem query_error_hierarchy_counterexample :
    subclassOf .relationNotFoundError .queryError = false ∧
    subclassOf .fieldNotFoundError .queryError = false ∧
    subclassOf .queryExecutionError .queryError = false := by decide

/-- C5 (amended): `OrderByFieldError` and `PaginationParameterError`
specialize `QueryError`; `RelationNotFoundError`, `FieldNotFoundError` and
`QueryExecutionError` specialize `RepositoryError` directly (siblings of
`QueryError`, not its children); and `QueryError` itself specializes
`RepositoryError`. -/
theorem query_error_hierarchy_amended :
    subclassOf .orderByFieldError .queryError = true ∧
    subclassOf .paginationParameterError .queryError = true ∧
    subclassOf .queryError .repositoryError = true ∧
    subclassOf .relationNotFoundError .repositoryError = true ∧
    subclassOf .fieldNotFoundError .repositoryError = true ∧
    subclassOf .queryExecutionError .repositoryError = true ∧
    subclassOf .orderByFieldError .repositoryError = true ∧
    subclassOf .paginationParameterError .repositoryError = true := by decide

/-- C6: Constructing any taxonomy error instance with any subset of its
template's named placeholders (including none) never raises (`some`): the
rendered message equals the kind's fixed template with each referenced
placeholder replaced by the supplied value, or by the empty string when
missing (`kwGet` models `kwargs.get(k, "")`). -/
theorem error_template_rendering_total (kwargs : List (String × String)) :
    mkMessage .repositoryError kwargs = some "Repository error occurred." ∧
    mkMessage .transactionError kwargs = some "Repository error occurred." ∧
    mkMessage .unknownTransactionError kwargs = some "Repository error occurred." ∧
    mkMessage .uniqueViolation kwargs
      = some ("Unique constraint violation. " ++ kwGet kwargs "original") ∧
    mkMessage .foreignKeyViolation kwargs
      = some ("Foreign key constraint violation. " ++ kwGet kwargs "original") ∧
    mkMessage .dataValidationError kwargs
      = some ("Invalid data: " ++ kwGet kwargs "details" ++ ". " ++ kwGet kwargs "original") ∧
    mkMessage .repositoryUsageError kwargs
      = some ("Repository usage error: " ++ kwGet kwargs "details") ∧
    mkMessage .queryError kwargs
      = some ("Model '" ++ kwGet kwargs "model" ++ "': unknown filter error for field '" ++
          kwGet kwargs "field" ++ "'. " ++ kwGet kwargs "original") ∧
    mkMessage .relationNotFoundError kwargs
      = some ("Model '" ++ kwGet kwargs "model" ++ "': relation '" ++ kwGet kwargs "rel" ++
          "' for join not found or invalid. " ++ kwGet kwargs "original") ∧
    mkMessage .fieldNotFoundError kwargs
      = some ("Model '" ++ kwGet kwargs "model" ++ "': filter field '" ++ kwGet kwargs "field" ++
          "' not found. " ++ kwGet kwargs "original") ∧
    mkMessage .queryExecutionError kwargs
      = some ("Model '" ++ kwGet kwargs "model" ++ "': query execution error '" ++
          kwGet kwargs "details" ++ "'. " ++ kwGet kwargs "original") ∧
    mkMessage .orderByFieldError kwargs
      = some ("Model '" ++ kwGet kwargs "model" ++ "': specified order_by field '" ++
          kwGet kwargs "field" ++ "' does not exist or is invalid. " ++ kwGet kwargs "original") ∧
    mkMessage .paginationParameterError kwargs
      = some ("Model '" ++ kwGet kwargs "model" ++ "': invalid pagination parameter '" ++
          kwGet kwargs "field" ++ "'. " ++ kwGet kwargs "details" ++ ". " ++
          kwGet kwargs "original") := by
  refine ⟨?_, ?_, ?_, ?_, ?_, ?_, ?_, ?_, ?_, ?_, ?_, ?_, ?_⟩ <;>
    simp [mkMessage, pyFormat, pyFormatGo, templateFields, templateFieldsGo, excTemplate,
      str_append_mk]

/-- C7: `create` with a configured model constructs an instance and
registers it with the session via `add` without ever invoking `commit`;
a `TypeError` or `ValueError` during construction raises
`DataValidationError`, any other construction failure raises
`UnknownTransactionError`, and an unconfigured model raises
`RepositoryUsageError`. -/
theorem create_stages_and_classifies (clsName mname : String) (ctor : CtorResult) :
    create clsName none ctor
      = ([], .error (.repositoryUsageError (clsName ++ " repository must define model attribute"))) ∧
    (∀ obj, ctor = .ok obj → create clsName (some mname) ctor = ([CrEvt.add obj], .ok obj)) ∧
    (∀ msg, ctor = .typeError msg → create clsName (some mname) ctor
      = ([], .error (.dataValidationError ("Invalid argument(s) for model '" ++ mname ++ "'") msg))) ∧
    (∀ msg, ctor = .valueError msg → create clsName (some mname) ctor
      = ([], .error (.dataValidationError ("Invalid value(s) for model '" ++ mname ++ "'") msg))) ∧
    (∀ msg, ctor = .otherError msg → create clsName (some mname) ctor
      = ([], .error (.unknownTransactionError ("Unexpected error while creating '" ++ mname ++ "'") msg))) ∧
    (∀ model : Option String, CrEvt.commit ∉ (create clsName model ctor).1) := by
  refine ⟨rfl, ?_, ?_, ?_, ?_, ?_⟩
  · rintro obj rfl; rfl
  · rintro msg rfl; rfl
  · rintro msg rfl; rfl
  · rintro msg rfl; rfl
  · intro model
    cases model <;> cases ctor <;> simp [create]

/-- Witness for C7: a successful construction is staged with `add`, and no
branch ever records a `commit`. -/
theorem create_stages_and_classifies_witness :
    create "UserRepository" (some "User") (.ok ⟨"User", [("name", "x")]⟩)
      = ([CrEvt.add ⟨"User", [("name", "x")]⟩], .ok ⟨"User", [("name", "x")]⟩) ∧
    CrEvt.commit ∉ (create "UserRepository" (some "User") (.ok ⟨"User", [("name", "x")]⟩)).1 := by
  have h := create_stages_and_classifies "UserRepository" "User" (.ok ⟨"User", [("name", "x")]⟩)
  exact ⟨h.2.1 ⟨"User", [("name", "x")]⟩ rfl, h.2.2.2.2.2 (some "User")⟩

/-- C8: Evaluation at the failing input (the unit test
`test_update_raises_if_object_is_not_instance_of_model` expects
`RepositoryUsageError` mentioning "Expected instance of 'DummyModel'"):
`update` on an object of a different class raises `DataValidationError`
naming the object's own class, not a `RepositoryUsageError` — the source's
`validate_object_to_update_defined` only checks for `None`. -/
theorem update_non_instance_no_usage_error :
    update "DummyRepository" (some "DummyModel") (some ⟨"OtherModel", []⟩) [("name", "Updated")]
      = (some ⟨"OtherModel", []⟩,
         some (.dataValidationError "'name' for model 'OtherModel'" "")) ∧
    (update "DummyRepository" (some "DummyModel") (some ⟨"OtherModel", []⟩)
        [("name", "Updated")]).2.map RepoErr.isUsageError = some false := by
  exact ⟨rfl, rfl⟩

/-- C9: For every call to `update` with a valid object (an instance of the
configured model, so its runtime class name is the model name) and a data
mapping whose first invalid key is `k`, `update` raises
`DataValidationError` whose details contain `k` and the model name, and
does not return normally. -/
theorem update_invalid_key_raises
    (clsName mname : String) (o : PyObj)
    (pre rest : List (String × String)) (k v : String)
    (hobj : o.cls = mname)
    (hpre : ∀ p ∈ pre, hasattrB o p.1 = true)
    (hk : hasattrB o k = false) :
    ∃ d, (update clsName (some mname) (some o) (pre ++ (k, v) :: rest)).2
        = some (.dataValidationError d "") ∧
      strContains d k = true ∧ strContains d mname = true := by
  have hloop := updateLoop_partial pre o k v rest hpre hk
  refine ⟨"'" ++ k ++ "' for model '" ++ o.cls ++ "'", ?_, ?_, ?_⟩
  · simp [update, validate_model_defined, validate_object_to_update_defined, hloop]
  · have h2 := chListContains_append k.data "'".data
      ("' for model '".data ++ (o.cls.data ++ "'".data))
    simpa [strContains, List.append_assoc] using h2
  · have h2 := chListContains_append mname.data
      ("'".data ++ (k.data ++ "' for model '".data)) "'".data
    rw [hobj]
    simpa [strContains, List.append_assoc] using h2

/-- Witness for C9: a concrete object of class "User" updated with data
whose second key is invalid — a `DataValidationError` whose details
contain both the key and the model name. -/
theorem update_invalid_key_raises_witness :
    ∃ d, (update "UserRepository" (some "User")
        (some ⟨"User", [("id", "1"), ("name", "a")]⟩)
        ([("name", "b")] ++ ("bogus", "x") :: [])).2
        = some (.dataValidationError d "") ∧
      strContains d "bogus" = true ∧ strContains d "User" = true := by
  exact update_invalid_key_raises "UserRepository" "User"
    ⟨"User", [("id", "1"), ("name", "a")]⟩ [("name", "b")] [] "bogus" "x"
    rfl (by decide) (by decide)

/-- C10: `update` applies changes one key at a time in the data mapping's
iteration order: when it raises `DataValidationError` at the first missing
key, every valid key preceding it has already been assigned onto the
object (the result is the fold of `setattr` over the prefix) — the
operation is not atomic on error. -/
theorem update_partial_apply_order (clsName mname : String) (o : PyObj)
    (pre rest : List (String × String)) (k v : String)
    (hpre : ∀ p ∈ pre, hasattrB o p.1 = true)
    (hk : hasattrB o k = false) :
    update clsName (some mname) (some o) (pre ++ (k, v) :: rest)
      = (some (pre.foldl (fun acc p => setattrF acc p.1 p.2) o),
         some (.dataValidationError ("'" ++ k ++ "' for model '" ++ o.cls ++ "'") "")) := by
  have hloop := updateLoop_partial pre o k v rest hpre hk
  simp [update, validate_model_defined, validate_object_to_update_defined, hloop]

/-- Witness for C10: the valid key "name" preceding the invalid key
"bogus" has been assigned when the error is raised — the object is left
partially mutated. -/
theorem update_partial_apply_order_witness :
    update "UserRepository" (some "User")
        (some ⟨"User", [("id", "1"), ("name", "a")]⟩)
        ([("name", "b")] ++ ("bogus", "x") :: [])
      = (some ⟨"User", [("id", "1"), ("name", "b")]⟩,
         some (.dataValidationError "'bogus' for model 'User'" "")) := by
  have h := update_partial_apply_order "UserRepository" "User"
    ⟨"User", [("id", "1"), ("name", "a")]⟩ [("name", "b")] [] "bogus" "x"
    (by decide) (by decide)
  exact h.trans (by decide)

end Alchemium
